import Mathlib

/-!
Verification development for the Clothy virtual try-on application.

The embedding covers the two source files:
  * `src/services/geminiService.ts` — the function `generateVirtualTryOnImage`,
    modelled as a pure function of the process environment (the optional
    `API_KEY`) and of the remote service's behaviour, returning the outcome
    together with the list of requests actually sent to the service;
  * the App component (upload state and the `handleTryOn` / `handleFileChange`
    handlers), modelled as transition functions on an explicit `AppState`
    record.  `handleTryOn` is factored through an explicit list of state
    effects so that ordering properties (what is set before the service call,
    what is the final step) can be stated.
-/

namespace Clothy

/-- `{ base64, mimeType }` argument record of `generateVirtualTryOnImage`. -/
structure ImageData where
  base64 : String
  mimeType : String
deriving Repr, DecidableEq

/-- The `inlineData` object of a content part: payload plus media type. -/
structure InlineData where
  data : String
  mimeType : String
deriving Repr, DecidableEq

/-- A response/request content part: it may carry `inlineData`, `text`, both
or neither, as in the SDK's part objects. -/
structure Part where
  inlineData : Option InlineData
  text : Option String
deriving Repr, DecidableEq

/-- The `content` object of a candidate, holding an optional part list. -/
structure Content where
  parts : Option (List Part)
deriving Repr, DecidableEq

/-- A response candidate with its optional content. -/
structure Candidate where
  content : Option Content
deriving Repr, DecidableEq

/-- The response of `ai.models.generateContent`. -/
structure GenResponse where
  candidates : Option (List Candidate)
deriving Repr, DecidableEq

/-- The request assembled by `generateVirtualTryOnImage`: model name, the
three content parts, and the requested response modalities. -/
structure GenRequest where
  model : String
  parts : List Part
  responseModalities : List String
deriving Repr, DecidableEq

/-- The behaviour of one remote call: either the call rejects with an error
message, or it resolves with a response. -/
def ServiceBehavior : Type := GenRequest → Except String GenResponse

/-- The fixed instruction prompt sent as the text part. -/
def tryOnPrompt : String :=
  "Using the two images provided, superimpose the clothing item from the second image onto the person in the first image. The fit should be realistic and natural. The output must be a high-quality, photorealistic image showing only the final result of the person wearing the clothing."

/-- Error message thrown when `process.env.API_KEY` is not set. -/
def apiKeyMissingMessage : String := "API_KEY environment variable not set."

/-- Error message thrown inside the `try` block when no usable image part is
found in the response. -/
def emptyResponseMessage : String :=
  "The API did not return a valid image. The response might have been blocked or did not meet safety guidelines."

/-- Error message thrown by the `catch` block of `generateVirtualTryOnImage`. -/
def transportFailureMessage : String :=
  "Failed to generate image. The model may be unavailable or the request was invalid."

/-- An inline-image part built from an `ImageData`, as `personImagePart` and
`clothingImagePart` are built in the source. -/
def imagePartOf (img : ImageData) : Part :=
  { inlineData := some { data := img.base64, mimeType := img.mimeType }, text := none }

/-- The fixed text part of the request. -/
def promptPart : Part :=
  { inlineData := none, text := some tryOnPrompt }

/-- `s.startsWith(p)` of JavaScript, computed on the underlying character
lists (equivalent to `String.startsWith`, stated this way so that it
evaluates by reduction). -/
def strStartsWith (s p : String) : Bool := p.data.isPrefixOf s.data

/-- The predicate of the `find` call:
`part.inlineData && part.inlineData.mimeType.startsWith('image/')`. -/
def isImagePart (p : Part) : Bool :=
  match p.inlineData with
  | some d => strStartsWith d.mimeType "image/"
  | none => false

/-- `response.candidates?.[0]?.content?.parts` with optional chaining: any
absent link yields `none`. -/
def responseParts (response : GenResponse) : Option (List Part) :=
  match response.candidates with
  | some (c :: _) =>
    match c.content with
    | some content => content.parts
    | none => none
  | _ => none

/-- The image-part search of `generateVirtualTryOnImage`: the first part of
the first candidate's content whose `inlineData` is present and whose media
type starts with `image/`. -/
def findImagePart (response : GenResponse) : Option Part :=
  match responseParts response with
  | some ps => ps.find? isImagePart
  | none => none

/-- Embedding of `generateVirtualTryOnImage` from `src/services/geminiService.ts`.
`env` is the optional `API_KEY`; `svc` is the behaviour of the single
`generateContent` call.  Returns the outcome (`Except.ok` the returned base64
payload, or `Except.error` the thrown message) together with the list of
requests sent to the remote service, in order. -/
def generateVirtualTryOnImage (env : Option String) (svc : ServiceBehavior)
    (personImage clothingImage : ImageData) :
    Except String String × List GenRequest :=
  match env with
  | none => (Except.error apiKeyMissingMessage, [])
  | some _ =>
    let req : GenRequest :=
      { model := "gemini-2.5-flash-image"
        parts := [imagePartOf personImage, imagePartOf clothingImage, promptPart]
        responseModalities := ["IMAGE"] }
    let attempt : Except String String :=
      match svc req with
      | Except.error e => Except.error e
      | Except.ok response =>
        match findImagePart response with
        | some ip =>
          match ip.inlineData with
          | some d => Except.ok d.data
          | none => Except.error emptyResponseMessage
        | none => Except.error emptyResponseMessage
    match attempt with
    | Except.ok s => (Except.ok s, [req])
    | Except.error _ => (Except.error transportFailureMessage, [req])

/-! ## The App component -/

/-- The `ImageState` record of the App: the selected file (modelled by its
name), its base64 payload and media type. -/
structure ImageState where
  file : String
  base64 : String
  mimeType : String
deriving Repr, DecidableEq

/-- The App's state hooks: the two upload slots, the generated result, the
loading flag and the error message. -/
structure AppState where
  personImage : Option ImageState
  clothingImage : Option ImageState
  generatedImage : Option String
  isLoading : Bool
  error : Option String
deriving Repr, DecidableEq

/-- The validation message of `handleTryOn`'s guard. -/
def validationMessage : String := "Please upload both images before trying on."

/-- The message set by `handleFileChange` when encoding fails. -/
def fileProcessMessage : String := "Failed to process file. Please try another image."

/-- The data reference built on success:
`data:image/png;base64,` followed by the returned payload. -/
def dataRef (payload : String) : String := "data:image/png;base64," ++ payload

/-- The message set when generation throws:
`An error occurred: {message}. Please try again.`. -/
def generationErrorMessage (m : String) : String :=
  "An error occurred: " ++ m ++ ". Please try again."

/-- One state effect performed by `handleTryOn`, in program order; the call
to the generation service is recorded as `callGenerate`. -/
inductive Effect where
  | setLoading (b : Bool)
  | setError (e : Option String)
  | setGeneratedImage (g : Option String)
  | callGenerate
deriving Repr, DecidableEq

/-- The sequence of effects `handleTryOn` performs, given the outcome `gen`
of the awaited `generateVirtualTryOnImage` call (ignored when the guard
fails, since no call is made).  Follows the source line by line: guard,
`setIsLoading(true)`, `setError(null)`, `setGeneratedImage(null)`, the
awaited call, the `try`/`catch` branch, and the `finally` block. -/
def handleTryOnTrace (gen : Except String String) (s : AppState) : List Effect :=
  match s.personImage, s.clothingImage with
  | some _, some _ =>
    [Effect.setLoading true, Effect.setError none, Effect.setGeneratedImage none,
     Effect.callGenerate] ++
    (match gen with
     | Except.ok resultBase64 => [Effect.setGeneratedImage (some (dataRef resultBase64))]
     | Except.error m => [Effect.setError (some (generationErrorMessage m))]) ++
    [Effect.setLoading false]
  | _, _ => [Effect.setError (some validationMessage)]

/-- Applying one effect to the App state. -/
def applyEffect (s : AppState) : Effect → AppState
  | Effect.setLoading b => { s with isLoading := b }
  | Effect.setError e => { s with error := e }
  | Effect.setGeneratedImage g => { s with generatedImage := g }
  | Effect.callGenerate => s

/-- Embedding of `handleTryOn`: the state reached after performing all its
effects, given the outcome `gen` of the generation call. -/
def handleTryOn (gen : Except String String) (s : AppState) : AppState :=
  (handleTryOnTrace gen s).foldl applyEffect s

/-- The `ImageData` passed to `generateVirtualTryOnImage` from a populated
upload slot. -/
def toImageData (i : ImageState) : ImageData :=
  { base64 := i.base64, mimeType := i.mimeType }

/-- `handleTryOn` composed with the service layer: when both slots are
populated the awaited outcome is that of `generateVirtualTryOnImage` on the
slots' contents; otherwise the guard fires and the outcome argument is
irrelevant. -/
def runTryOn (env : Option String) (svc : ServiceBehavior) (s : AppState) : AppState :=
  match s.personImage, s.clothingImage with
  | some p, some c =>
    handleTryOn (generateVirtualTryOnImage env svc (toImageData p) (toImageData c)).fst s
  | _, _ => handleTryOn (Except.error "") s

/-- The two upload roles of `handleFileChange`. -/
inductive Role where
  | person
  | clothing
deriving Repr, DecidableEq

/-- Embedding of `handleFileChange`: `encode` is the outcome of the awaited
`fileToBase64` call (`(base64, mimeType)` on success, failure otherwise);
`file` is the selected file name or `none`. -/
def handleFileChange (encode : Except Unit (String × String))
    (file : Option String) (ty : Role) (s : AppState) : AppState :=
  match file with
  | none =>
    match ty with
    | Role.person => { s with personImage := none }
    | Role.clothing => { s with clothingImage := none }
  | some f =>
    match encode with
    | Except.ok payload =>
      let newState : ImageState :=
        { file := f, base64 := payload.fst, mimeType := payload.snd }
      match ty with
      | Role.person => { s with personImage := some newState }
      | Role.clothing => { s with clothingImage := some newState }
    | Except.error _ => { s with error := some fileProcessMessage }

/-! ## Concrete example values -/

/-- An encoded person photo. -/
def personEx : ImageData := { base64 := "cGVyc29u", mimeType := "image/jpeg" }

/-- An encoded clothing photo. -/
def clothingEx : ImageData := { base64 := "c2hpcnQ=", mimeType := "image/png" }

/-- A populated person upload slot. -/
def personSlot : ImageState :=
  { file := "person.jpg", base64 := "cGVyc29u", mimeType := "image/jpeg" }

/-- A populated clothing upload slot. -/
def clothingSlot : ImageState :=
  { file := "shirt.png", base64 := "c2hpcnQ=", mimeType := "image/png" }

/-- App state with both slots populated, nothing else set. -/
def readyState : AppState :=
  { personImage := some personSlot
    clothingImage := some clothingSlot
    generatedImage := none
    isLoading := false
    error := none }

/-- App state holding a previous successful result, with the person slot
absent (a slot was cleared after a success). -/
def staleSuccessState : AppState :=
  { personImage := none
    clothingImage := some clothingSlot
    generatedImage := some "data:image/png;base64,old"
    isLoading := false
    error := none }

/-- App state with both slots populated and a stale error and stale result
left over from earlier attempts. -/
def staleAttemptState : AppState :=
  { personImage := some personSlot
    clothingImage := some clothingSlot
    generatedImage := some "data:image/png;base64,old"
    isLoading := false
    error := some "An error occurred: boom. Please try again." }

/-- A text-only response part (no `inlineData`). -/
def textOnlyPart : Part := { inlineData := none, text := some "cannot comply" }

/-- A part with a present payload whose media type is not an image. -/
def pdfPart : Part :=
  { inlineData := some { data := "UERG", mimeType := "application/pdf" }, text := none }

/-- A JPEG image part. -/
def jpegPart : Part :=
  { inlineData := some { data := "SlBH", mimeType := "image/jpeg" }, text := none }

/-- A response whose only candidate carries a single text part and hence no
usable image. -/
def noImageResponse : GenResponse :=
  { candidates := some [{ content := some { parts := some [textOnlyPart] } }] }

/-- A response packing the given part list into one candidate. -/
def responseOfParts (ps : List Part) : GenResponse :=
  { candidates := some [{ content := some { parts := some ps } }] }

/-! ## Helper lemmas -/

/-- `find?` returns the marked element when everything before it fails the
predicate. -/
theorem find_first_image (pre : List Part) (p : Part) (post : List Part)
    (hpre : ∀ q ∈ pre, isImagePart q = false) (hp : isImagePart p = true) :
    (pre ++ p :: post).find? isImagePart = some p := by
  induction pre with
  | nil => simp [List.find?_cons_of_pos, hp]
  | cons a as ih =>
    have ha : isImagePart a = false := hpre a (List.mem_cons_self a as)
    rw [List.cons_append, List.find?_cons_of_neg _ (by simp [ha])]
    exact ih (fun q hq => hpre q (List.mem_cons_of_mem a hq))

/-- When the credential is present and the service resolves with a response
whose first candidate's parts are a run of non-image parts followed by an
image part `p` with payload `d`, `generateVirtualTryOnImage` returns
`d.data`. -/
theorem generate_ok_of_first_image (key : String) (person clothing : ImageData)
    (pre post : List Part) (p : Part) (d : InlineData) (rest : List Candidate)
    (hpre : ∀ q ∈ pre, isImagePart q = false)
    (hd : p.inlineData = some d)
    (him : strStartsWith d.mimeType "image/" = true) :
    (generateVirtualTryOnImage (some key)
        (fun _ => Except.ok
          { candidates := some
              ({ content := some { parts := some (pre ++ p :: post) } } :: rest) })
        person clothing).fst = Except.ok d.data := by
  have hp : isImagePart p = true := by simp [isImagePart, hd, him]
  simp [generateVirtualTryOnImage, findImagePart, responseParts,
    find_first_image pre p post hpre hp, hd]

/-! ## Claim theorems -/

/-- C1: when the service resolves with a response containing no part with a
present payload of image media type, `generateVirtualTryOnImage` fails — but
the surfaced message is the generic catch-all `transportFailureMessage`, the
very same message produced when the call itself rejects: the descriptive
`emptyResponseMessage` thrown inside the `try` block is swallowed by the
function's own `catch` and is not distinguishable to the caller from a
transport failure. -/
theorem empty_response_surfaces_transport_message :
    (generateVirtualTryOnImage (some "key") (fun _ => Except.ok noImageResponse)
        personEx clothingEx).fst = Except.error transportFailureMessage
    ∧ (generateVirtualTryOnImage (some "key") (fun _ => Except.error "network failure")
        personEx clothingEx).fst = Except.error transportFailureMessage
    ∧ transportFailureMessage ≠ emptyResponseMessage :=
  ⟨rfl, rfl, by decide⟩

/-- C5: if the generation call resolves with payload `P` and both slots are
populated, the state is Succeeded: the result equals
`data:image/png;base64,` ++ `P`, loading is off and no error is exposed. -/
theorem success_sets_data_ref (P : String) (s : AppState) (p c : ImageState)
    (hp : s.personImage = some p) (hc : s.clothingImage = some c) :
    (handleTryOn (Except.ok P) s).generatedImage = some ("data:image/png;base64," ++ P)
    ∧ (handleTryOn (Except.ok P) s).isLoading = false
    ∧ (handleTryOn (Except.ok P) s).error = none := by
  simp [handleTryOn, handleTryOnTrace, hp, hc, applyEffect, dataRef]

/-- C5 witness: the spec's scenario, payload `Zm9v` from `readyState`. -/
theorem success_sets_data_ref_witness :
    readyState.personImage = some personSlot
    ∧ readyState.clothingImage = some clothingSlot
    ∧ ((handleTryOn (Except.ok "Zm9v") readyState).generatedImage
          = some ("data:image/png;base64," ++ "Zm9v")
        ∧ (handleTryOn (Except.ok "Zm9v") readyState).isLoading = false
        ∧ (handleTryOn (Except.ok "Zm9v") readyState).error = none)
    ∧ ("data:image/png;base64," ++ "Zm9v") = "data:image/png;base64,Zm9v" :=
  ⟨rfl, rfl, success_sets_data_ref "Zm9v" readyState personSlot clothingSlot rfl rfl, rfl⟩

/-- C6: if the generation call rejects with message `M` and both slots are
populated, the state is Failed: the exposed error is exactly
`An error occurred: ` ++ `M` ++ `. Please try again.` (hence contains `M`),
the result is cleared and loading is off. -/
theorem failure_sets_error_message (M : String) (s : AppState) (p c : ImageState)
    (hp : s.personImage = some p) (hc : s.clothingImage = some c) :
    (handleTryOn (Except.error M) s).error
        = some ("An error occurred: " ++ M ++ ". Please try again.")
    ∧ (handleTryOn (Except.error M) s).generatedImage = none
    ∧ (handleTryOn (Except.error M) s).isLoading = false := by
  simp [handleTryOn, handleTryOnTrace, hp, hc, applyEffect, generationErrorMessage]

/-- C6 witness: a concrete rejection message at `readyState`. -/
theorem failure_sets_error_message_witness :
    readyState.personImage = some personSlot
    ∧ readyState.clothingImage = some clothingSlot
    ∧ ((handleTryOn (Except.error "boom") readyState).error
          = some ("An error occurred: " ++ "boom" ++ ". Please try again.")
        ∧ (handleTryOn (Except.error "boom") readyState).generatedImage = none
        ∧ (handleTryOn (Except.error "boom") readyState).isLoading = false) :=
  ⟨rfl, rfl, failure_sets_error_message "boom" readyState personSlot clothingSlot rfl rfl⟩

/-- C7: with `API_KEY` absent from the environment,
`generateVirtualTryOnImage` fails with the configuration message and the
list of requests sent to the service is empty — nothing is constructed or
sent, and there is no retry, whatever the service behaviour and arguments. -/
theorem missing_api_key_sends_nothing (svc : ServiceBehavior) (p c : ImageData) :
    generateVirtualTryOnImage none svc p c = (Except.error apiKeyMissingMessage, []) := rfl

/-- C10: when a file is selected but encoding fails, `handleFileChange`
leaves both upload slots, the generated result and the loading flag
unchanged, and only sets the error message. -/
theorem encode_failure_only_sets_error (f : String) (ty : Role) (s : AppState) :
    (handleFileChange (Except.error ()) (some f) ty s).personImage = s.personImage
    ∧ (handleFileChange (Except.error ()) (some f) ty s).clothingImage = s.clothingImage
    ∧ (handleFileChange (Except.error ()) (some f) ty s).generatedImage = s.generatedImage
    ∧ (handleFileChange (Except.error ()) (some f) ty s).isLoading = s.isLoading
    ∧ (handleFileChange (Except.error ()) (some f) ty s).error = some fileProcessMessage := by
  cases ty <;> exact ⟨rfl, rfl, rfl, rfl, rfl⟩

/-- C2: with both slots populated, `handleTryOn` turns the loading flag on
as its first step, the final step of its effect sequence is turning it off,
and the resulting state has loading off — for both the resolving and the
rejecting outcome of the generation call. -/
theorem loading_false_final_step (gen : Except String String) (s : AppState)
    (p c : ImageState)
    (hp : s.personImage = some p) (hc : s.clothingImage = some c) :
    (handleTryOnTrace gen s).head? = some (Effect.setLoading true)
    ∧ (handleTryOnTrace gen s).getLast? = some (Effect.setLoading false)
    ∧ (handleTryOn gen s).isLoading = false := by
  cases gen <;> simp [handleTryOn, handleTryOnTrace, hp, hc, applyEffect]

/-- C2 witness: the rejecting outcome at `readyState`. -/
theorem loading_false_final_step_witness :
    readyState.personImage = some personSlot
    ∧ readyState.clothingImage = some clothingSlot
    ∧ ((handleTryOnTrace (Except.error "network failure") readyState).head?
          = some (Effect.setLoading true)
        ∧ (handleTryOnTrace (Except.error "network failure") readyState).getLast?
          = some (Effect.setLoading false)
        ∧ (handleTryOn (Except.error "network failure") readyState).isLoading = false) :=
  ⟨rfl, rfl,
    loading_false_final_step (Except.error "network failure") readyState
      personSlot clothingSlot rfl rfl⟩

/-- C3 counterexample: from a state with the person slot absent but a
previous result still held, `handleTryOn` keeps the stale result, so the
state is not left in Idle (which would require no result). -/
theorem validation_keeps_stale_result :
    staleSuccessState.personImage = none
    ∧ (handleTryOn (Except.error "transport") staleSuccessState).generatedImage
        = some "data:image/png;base64,old"
    ∧ (handleTryOn (Except.error "transport") staleSuccessState).generatedImage ≠ none :=
  ⟨rfl, rfl, by decide⟩

/-- C3 (amended): with either slot absent, `handleTryOn` never performs the
generation call, sets the error message to exactly the validation message,
and leaves the result and the loading flag unchanged — so a state that was
Idle (no result, not loading) remains Idle. -/
theorem validation_guard (gen : Except String String) (s : AppState)
    (h : s.personImage = none ∨ s.clothingImage = none) :
    Effect.callGenerate ∉ handleTryOnTrace gen s
    ∧ (handleTryOn gen s).error = some validationMessage
    ∧ (handleTryOn gen s).generatedImage = s.generatedImage
    ∧ (handleTryOn gen s).isLoading = s.isLoading := by
  have htrace : handleTryOnTrace gen s = [Effect.setError (some validationMessage)] := by
    cases hp : s.personImage with
    | none => cases hc : s.clothingImage <;> simp [handleTryOnTrace, hp, hc]
    | some p =>
      cases hc : s.clothingImage with
      | none => simp [handleTryOnTrace, hp, hc]
      | some c =>
        rcases h with h | h
        · rw [hp] at h; exact absurd h (by simp)
        · rw [hc] at h; exact absurd h (by simp)
  refine ⟨?_, ?_, ?_, ?_⟩ <;> simp [handleTryOn, htrace, applyEffect]

/-- C3 witness for the amended claim: at `staleSuccessState` the guard fires,
no call happens, and result and loading are untouched. -/
theorem validation_guard_witness :
    (staleSuccessState.personImage = none ∨ staleSuccessState.clothingImage = none)
    ∧ (Effect.callGenerate ∉ handleTryOnTrace (Except.ok "Zm9v") staleSuccessState
        ∧ (handleTryOn (Except.ok "Zm9v") staleSuccessState).error = some validationMessage
        ∧ (handleTryOn (Except.ok "Zm9v") staleSuccessState).generatedImage
            = staleSuccessState.generatedImage
        ∧ (handleTryOn (Except.ok "Zm9v") staleSuccessState).isLoading
            = staleSuccessState.isLoading) :=
  ⟨Or.inl rfl, validation_guard (Except.ok "Zm9v") staleSuccessState (Or.inl rfl)⟩

/-- C4: `generateVirtualTryOnImage` returns the payload of the first
response part whose `inlineData` is present and whose media type starts with
`image/`, skipping any earlier parts that lack a payload or carry a
non-image media type. -/
theorem first_image_part_payload (key : String) (person clothing : ImageData)
    (pre post : List Part) (p : Part) (d : InlineData) (rest : List Candidate)
    (hpre : ∀ q ∈ pre, isImagePart q = false)
    (hd : p.inlineData = some d)
    (him : strStartsWith d.mimeType "image/" = true) :
    (generateVirtualTryOnImage (some key)
        (fun _ => Except.ok
          { candidates := some
              ({ content := some { parts := some (pre ++ p :: post) } } :: rest) })
        person clothing).fst = Except.ok d.data :=
  generate_ok_of_first_image key person clothing pre post p d rest hpre hd him

/-- C4 witness: a text part and a PDF part are skipped and the JPEG part's
payload is returned. -/
theorem first_image_part_payload_witness :
    (∀ q ∈ [textOnlyPart, pdfPart], isImagePart q = false)
    ∧ jpegPart.inlineData = some { data := "SlBH", mimeType := "image/jpeg" }
    ∧ strStartsWith (InlineData.mk "SlBH" "image/jpeg").mimeType "image/" = true
    ∧ (generateVirtualTryOnImage (some "key")
        (fun _ => Except.ok
          { candidates := some
              ({ content := some
                  { parts := some ([textOnlyPart, pdfPart] ++ jpegPart :: []) } } :: []) })
        personEx clothingEx).fst = Except.ok "SlBH" :=
  ⟨by decide, rfl, by decide,
    first_image_part_payload "key" personEx clothingEx [textOnlyPart, pdfPart] []
      jpegPart (InlineData.mk "SlBH" "image/jpeg") [] (by decide) rfl (by decide)⟩

/-- C8: when the guard passes, the first four effects of `handleTryOn` are
loading on, error cleared, result cleared, then the generation call — and
the state to which the call is issued holds no error and no result. -/
theorem clears_state_before_generate (gen : Except String String) (s : AppState)
    (p c : ImageState)
    (hp : s.personImage = some p) (hc : s.clothingImage = some c) :
    (handleTryOnTrace gen s).take 4
        = [Effect.setLoading true, Effect.setError none, Effect.setGeneratedImage none,
           Effect.callGenerate]
    ∧ (((handleTryOnTrace gen s).take 3).foldl applyEffect s).error = none
    ∧ (((handleTryOnTrace gen s).take 3).foldl applyEffect s).generatedImage = none := by
  cases gen <;> simp [handleTryOnTrace, hp, hc, applyEffect]

/-- C8 witness: at a state holding a stale error and a stale result. -/
theorem clears_state_before_generate_witness :
    staleAttemptState.personImage = some personSlot
    ∧ staleAttemptState.clothingImage = some clothingSlot
    ∧ ((handleTryOnTrace (Except.ok "Zm9v") staleAttemptState).take 4
          = [Effect.setLoading true, Effect.setError none, Effect.setGeneratedImage none,
             Effect.callGenerate]
        ∧ (((handleTryOnTrace (Except.ok "Zm9v") staleAttemptState).take 3).foldl
              applyEffect staleAttemptState).error = none
        ∧ (((handleTryOnTrace (Except.ok "Zm9v") staleAttemptState).take 3).foldl
              applyEffect staleAttemptState).generatedImage = none) :=
  ⟨rfl, rfl,
    clears_state_before_generate (Except.ok "Zm9v") staleAttemptState
      personSlot clothingSlot rfl rfl⟩

/-- C9: whatever the media type of the first matching image part (hypotheses
require only that it starts with `image/`), the exposed result labels the
payload with the fixed `data:image/png;base64,` label. -/
theorem result_labelled_png (key : String) (s : AppState) (p c : ImageState)
    (pre post : List Part) (q : Part) (d : InlineData) (rest : List Candidate)
    (hp : s.personImage = some p) (hc : s.clothingImage = some c)
    (hpre : ∀ r ∈ pre, isImagePart r = false)
    (hq : q.inlineData = some d)
    (him : strStartsWith d.mimeType "image/" = true) :
    (runTryOn (some key)
        (fun _ => Except.ok
          { candidates := some
              ({ content := some { parts := some (pre ++ q :: post) } } :: rest) })
        s).generatedImage = some ("data:image/png;base64," ++ d.data) := by
  have hgen := generate_ok_of_first_image key (toImageData p) (toImageData c)
    pre post q d rest hpre hq him
  simp [runTryOn, hp, hc, hgen, handleTryOn, handleTryOnTrace, applyEffect, dataRef]

/-- C9 witness: a first image part of media type `image/jpeg` still yields a
`data:image/png;base64,` result. -/
theorem result_labelled_png_witness :
    readyState.personImage = some personSlot
    ∧ readyState.clothingImage = some clothingSlot
    ∧ (∀ r ∈ [textOnlyPart], isImagePart r = false)
    ∧ jpegPart.inlineData = some (InlineData.mk "SlBH" "image/jpeg")
    ∧ strStartsWith (InlineData.mk "SlBH" "image/jpeg").mimeType "image/" = true
    ∧ (runTryOn (some "key")
        (fun _ => Except.ok
          { candidates := some
              ({ content := some { parts := some ([textOnlyPart] ++ jpegPart :: []) } } :: []) })
        readyState).generatedImage = some ("data:image/png;base64," ++ "SlBH") :=
  ⟨rfl, rfl, by decide, rfl, by decide,
    result_labelled_png "key" readyState personSlot clothingSlot [textOnlyPart] []
      jpegPart (InlineData.mk "SlBH" "image/jpeg") [] rfl rfl (by decide) rfl (by decide)⟩

end Clothy
